import Mathlib

/-!
Shallow embedding of the Serverless-leads-site repository:
the browser-side form handler (`site/app.js`) and the serverless
lead-intake handler (documented in the repository's handler README;
its source is not part of the repository snapshot, so it is modelled
from the specification where needed).

Strings are modelled as Lean `String`, JS `\s` as `Char.isWhitespace`,
and effects (DOM mutation, network, console) as explicit action traces.
All definitions come first, then the theorems.
-/

namespace LeadsSite

/-! ## Client-side validation (`validate`, app.js lines 29–43) -/

/-- JS `String.prototype.trim`: drop whitespace from both ends.
(Executable embedding over the character list, so that concrete instances
of every theorem evaluate by kernel reduction.) -/
def jsTrim (s : String) : String :=
  String.mk (((s.data.dropWhile Char.isWhitespace).reverse.dropWhile Char.isWhitespace).reverse)

/-- The character class `[^\s@]` of the e-mail pattern in `validate`:
any character that is neither whitespace nor `@`. -/
def isA (c : Char) : Bool := !c.isWhitespace && c != '@'

/-- Matcher for the regex fragment `[^\s@]*\.[^\s@]+$` (a Brzozowski-style
transliteration: either the terminal `.` followed by one or more
`[^\s@]` characters starts here, or one `[^\s@]` character is consumed). -/
def matchDotTail : List Char → Bool
  | [] => false
  | c :: rest => (c == '.' && !rest.isEmpty && rest.all isA) || (isA c && matchDotTail rest)

/-- Matcher for the regex fragment `[^\s@]+\.[^\s@]+$` (the domain part). -/
def matchDomain : List Char → Bool
  | [] => false
  | c :: rest => isA c && matchDotTail rest

/-- Matcher for the regex fragment `[^\s@]*@[^\s@]+\.[^\s@]+$`. -/
def matchLocalTail : List Char → Bool
  | [] => false
  | c :: rest => (c == '@' && matchDomain rest) || (isA c && matchLocalTail rest)

/-- The permissive `local@domain.tld` e-mail test of `validate`
(app.js line 37): the anchored regex `[^\s@]+@[^\s@]+\.[^\s@]+` applied
with `.test`. -/
def emailRegexMatch (s : String) : Bool :=
  match s.data with
  | [] => false
  | c :: rest => isA c && matchLocalTail rest

/-- The form state read by `validate`: the three text inputs and the
consent checkbox. -/
structure FormState where
  name : String
  email : String
  message : String
  consent : Bool
deriving DecidableEq, Repr

/-- The `errors` object built by `validate`: one optional message per field
(a key is present in the JS object exactly when the field is `some`). -/
structure FieldErrors where
  name : Option String
  email : Option String
  message : Option String
  consent : Option String
deriving DecidableEq, Repr

/-- The trimmed field data returned by `validate`. -/
structure VData where
  name : String
  email : String
  message : String
deriving DecidableEq, Repr

/-- The value returned by `validate`: `{ ok, errors, data }`. -/
structure VResult where
  ok : Bool
  errors : FieldErrors
  data : VData
deriving DecidableEq, Repr

/-- The test `Object.keys(errors).length === 0` on the `errors` object. -/
def noErrors (e : FieldErrors) : Bool :=
  e.name.isNone && e.email.isNone && e.message.isNone && e.consent.isNone

/-- Embedding of `validate(form)` (app.js lines 29–43): trims the three
text fields, flags each failing field with its message, and reports `ok`
iff the errors object is empty. -/
def validate (form : FormState) : VResult :=
  let name := jsTrim form.name
  let email := jsTrim form.email
  let message := jsTrim form.message
  let consent := form.consent
  let errors : FieldErrors :=
    { name := if name.length < 2 then some "Please enter your full name." else none
      email := if !emailRegexMatch email then some "Please enter a valid email." else none
      message := if message.length < 10 then some "Please provide a few more details." else none
      consent := if !consent then some "You must consent to be contacted." else none }
  { ok := noErrors errors
    errors := errors
    data := { name := name, email := email, message := message } }

/-! ## UTM parsing and payload construction (app.js lines 20–27, 67–77) -/

/-- The five recognized attribution keys iterated by `parseUTM`. -/
def utmKeys : List String := ["utm_source", "utm_medium", "utm_campaign", "utm_term", "utm_content"]

/-- Embedding of `new URLSearchParams(location.search).get(k)`: first value
for `k`, or `null` when absent.  The query string is modelled as its
decoded key/value list. -/
def getParam (q : List (String × String)) (k : String) : Option String :=
  (q.find? (fun kv => kv.1 == k)).map (fun kv => kv.2)

/-- Embedding of `parseUTM()` (app.js lines 20–27): for each recognized
key, copy it into the result object when `p.get(k)` is truthy (present
and non-empty). -/
def parseUTM (q : List (String × String)) : List (String × String) :=
  utmKeys.filterMap (fun k =>
    match getParam q k with
    | some v => if v = "" then none else some (k, v)
    | none => none)

/-- The JSON object posted to the intake endpoint. -/
structure Payload where
  name : String
  email : String
  message : String
  utm : List (String × String)
  userAgent : String
  referer : Option String
  ts : String
deriving DecidableEq, Repr

/-- The browser-supplied ambient data read by `buildPayload`:
`location.search` (decoded), `navigator.userAgent`, `document.referrer`
(empty string when there is none) and the current time rendered by
`new Date().toISOString()`. -/
structure BrowserEnv where
  query : List (String × String)
  userAgent : String
  referrer : String
  nowISO : String
deriving DecidableEq, Repr

/-- Embedding of `buildPayload(form)` (app.js lines 67–77): spreads the
validated (trimmed) data and adds `utm`, `userAgent`, `referer`
(`document.referrer || null`) and the client timestamp `ts`. -/
def buildPayload (env : BrowserEnv) (form : FormState) : Payload :=
  let data := (validate form).data
  { name := data.name
    email := data.email
    message := data.message
    utm := parseUTM env.query
    userAgent := env.userAgent
    referer := if env.referrer != "" then some env.referrer else none
    ts := env.nowISO }

/-! ## JSON values (config document and response bodies)

JSON arrays are not modelled: no claim depends on them (the only JSON
values the client inspects are the config object's `API_BASE_URL` string
and a response object's `message` field). -/

/-- A JSON value as seen by the client (arrays omitted, see above). -/
inductive JValue where
  | null
  | bool (b : Bool)
  | num (n : Int)
  | str (s : String)
  | obj (fields : List (String × JValue))
deriving Repr

/-- Property lookup on a JSON object's field list (first match, as in a
parsed object without duplicate keys). -/
def lookupField (fields : List (String × JValue)) (k : String) : Option JValue :=
  (fields.find? (fun kv => kv.1 == k)).map (fun kv => kv.2)

/-- JS property access `v.k` returning `undefined`/`null`-ish absence as
`none` for non-objects. -/
def getProp (v : JValue) (k : String) : Option JValue :=
  match v with
  | .obj fields => lookupField fields k
  | _ => none

/-- JS truthiness of a JSON value. -/
def jsTruthy : JValue → Bool
  | .null => false
  | .bool b => b
  | .num n => n != 0
  | .str s => s != ""
  | .obj _ => true

/-- JS string conversion of a JSON value, as performed by
`new Error(value)` on a non-string argument. -/
def jsToString : JValue → String
  | .null => "null"
  | .bool b => cond b "true" "false"
  | .num n => toString n
  | .str s => s
  | .obj _ => "[object Object]"

/-- JS `typeof v === "object"` for a JSON value (`null` counts). -/
def typeofIsObject : JValue → Bool
  | .null => true
  | .obj _ => true
  | _ => false

/-! ## Runtime configuration loading (`loadConfig`, app.js lines 7–18) -/

/-- List matcher: does `cs` start with `pat`? -/
def listStartsWith : List Char → List Char → Bool
  | _, [] => true
  | [], _ :: _ => false
  | c :: cs, p :: ps => c == p && listStartsWith cs ps

/-- List matcher: does `cs` contain `pat` as a contiguous run? -/
def listContainsSub : List Char → List Char → Bool
  | [], pat => pat.isEmpty
  | c :: rest, pat => listStartsWith (c :: rest) pat || listContainsSub rest pat

/-- JS `String.prototype.includes`. -/
def jsIncludes (s pat : String) : Bool := listContainsSub s.data pat.data

/-- Removal of at most one trailing `'/'`, the effect of
`.replace(\x2f\\\x2f$\x2f, "")` on app.js line 13. -/
def stripTrailingSlash (cs : List Char) : List Char :=
  if cs.getLast? = some '/' then cs.dropLast else cs

/-- Normalization applied to a configured base URL on app.js line 13:
`cfg.API_BASE_URL.trim().replace(\x2f\\\x2f$\x2f, "")`. -/
def normalizeBase (s : String) : String :=
  String.mk (stripTrailingSlash (jsTrim s).data)

/-- Outcome of `fetch("./config.json")` followed by `res.json()`:
network failure, non-ok HTTP status, JSON parse failure, or a parsed
JSON document. -/
inductive ConfigFetch where
  | fetchFail
  | httpNotOk
  | jsonFail
  | jsonOk (v : JValue)

/-- Embedding of `loadConfig()` (app.js lines 7–18): the resulting value
of `API_BASE_URL`, which stays `null` (`none`) unless the fetched config
has a string-typed `API_BASE_URL` whose trim is non-empty. -/
def loadConfig : ConfigFetch → Option String
  | .jsonOk v =>
    match getProp v "API_BASE_URL" with
    | some (.str s) => if jsTrim s = "" then none else some (normalizeBase s)
    | _ => none
  | _ => none

/-- The URL of the intake request, app.js line 135: `API_BASE_URL + "/lead"`. -/
def postUrl (base : String) : String := base ++ "/lead"

/-! ## Response handling (`postJSON`, app.js lines 79–102) -/

/-- An HTTP response as observed through `fetch`: status, `statusText`,
the `content-type` header, and the body as JSON (when parseable) or text. -/
structure FetchResponse where
  status : Nat
  statusText : String
  contentType : Option String
  jsonBody : JValue
  textBody : String

/-- The `Response.ok` flag of `fetch`: status in the range 200–299. -/
def resOk (r : FetchResponse) : Bool := 200 ≤ r.status && r.status ≤ 299

/-- The check `res.headers.get("content-type")?.includes("application/json")`
(app.js line 91); an absent header is `undefined`, hence falsy. -/
def ctIndicatesJson : Option String → Bool
  | none => false
  | some ct => jsIncludes ct "application/json"

/-- A response payload after app.js line 92: parsed JSON or raw text. -/
inductive RespPayload where
  | json (v : JValue)
  | text (s : String)

/-- Line 92 of app.js: `isJson ? await res.json() : await res.text()`. -/
def parsePayload (r : FetchResponse) : RespPayload :=
  if ctIndicatesJson r.contentType then .json r.jsonBody else .text r.textBody

/-- JS `typeof payload === "object"` on a response payload (text payloads
are strings, hence not objects). -/
def payloadTypeofObject : RespPayload → Bool
  | .json v => typeofIsObject v
  | .text _ => false

/-- JS `payload?.message` on a response payload. -/
def payloadMessage : RespPayload → Option JValue
  | .json v => getProp v "message"
  | .text _ => none

/-- The condition `typeof payload === "object" && payload?.message` of
app.js line 94. -/
def hasTruthyMessage (p : RespPayload) : Bool :=
  payloadTypeofObject p &&
    (match payloadMessage p with
     | some m => jsTruthy m
     | none => false)

/-- Embedding of the response-handling half of `postJSON` (app.js lines
91–97): parse the body according to the content type; on a non-success
status throw `new Error(errMsg || "Request failed")` where `errMsg` is
the truthy `message` field of an object payload, else `res.statusText`. -/
def postJSONResult (r : FetchResponse) : Except String RespPayload :=
  let payload := parsePayload r
  if resOk r then .ok payload
  else
    let errVal : JValue :=
      if hasTruthyMessage payload then (payloadMessage payload).getD JValue.null
      else JValue.str r.statusText
    .error (jsToString (if jsTruthy errVal then errVal else JValue.str "Request failed"))

/-! ## Banner state (`showAlert`, app.js lines 59–65)

Every mutation of the two banners' visibility in app.js goes through
`showAlert`, so the reachable banner states are the states produced by
arbitrary sequences of `showAlert` calls. -/

/-- The DOM state of the two alert banners (`hidden` flags and text). -/
structure BannerState where
  successHidden : Bool
  failureHidden : Bool
  successText : String
  failureText : String
deriving DecidableEq, Repr

/-- Visibility of the success banner. -/
def successVisible (st : BannerState) : Bool := !st.successHidden

/-- Visibility of the failure banner. -/
def failureVisible (st : BannerState) : Bool := !st.failureHidden

/-- Exactly one of the two banners is visible. -/
def exactlyOneVisible (st : BannerState) : Bool :=
  (successVisible st && !failureVisible st) || (!successVisible st && failureVisible st)

/-- At most one of the two banners is visible. -/
def atMostOneVisible (st : BannerState) : Bool :=
  !(successVisible st && failureVisible st)

/-- Embedding of `showAlert(type, visible, customText)` (app.js lines
59–65): the target banner is `success` when `type === "success"`, else
`failure`; a truthy `customText` replaces the text; the target's `hidden`
becomes `!visible` and the other banner is always hidden. -/
def applyShowAlert (st : BannerState) (ty : String) (visible : Bool)
    (customText : Option String) : BannerState :=
  if ty = "success" then
    { st with
      successText := match customText with
        | some t => if t = "" then st.successText else t
        | none => st.successText
      successHidden := !visible
      failureHidden := true }
  else
    { st with
      failureText := match customText with
        | some t => if t = "" then st.failureText else t
        | none => st.failureText
      failureHidden := !visible
      successHidden := true }

/-- Modelled from the spec: the initial DOM state of the banners.  The
static page (not part of the snapshot) ships both feedback banners
hidden; they are only shown as submission/configuration feedback. -/
def initialBanners : BannerState :=
  { successHidden := true, failureHidden := true, successText := "", failureText := "" }

/-- Banner states reachable during the client's lifecycle: the initial
state and anything produced by a `showAlert` call. -/
inductive ReachableBanner : BannerState → Prop
  | init : ReachableBanner initialBanners
  | step (st : BannerState) (ty : String) (visible : Bool) (customText : Option String) :
      ReachableBanner st → ReachableBanner (applyShowAlert st ty visible customText)

/-! ## The submit handler as an action trace (app.js lines 123–145) -/

/-- Observable actions of the submit handler, in program order. -/
inductive CAction where
  | alert (ty : String) (visible : Bool) (customText : Option String)
  | showFieldErrors (e : FieldErrors)
  | setLoading (b : Bool)
  | post (url : String) (body : Payload)
  | logInfo
  | logError
  | formReset
deriving DecidableEq, Repr

/-- Completion of `await postJSON(...)`: a resolved payload, or a raised
error (validation of the response, network failure, or the abort fired by
the 10-second timeout). -/
inductive PostOutcome where
  | resolved (p : RespPayload)
  | thrown (msg : String)

/-- The failure banner text of app.js line 141. -/
def failText : String := "❌ Something went wrong. Please try again in a moment."

/-- Embedding of the `submit` listener (app.js lines 123–145) as the trace
of actions it performs, given how the single `postJSON` call completes:
clear both banners, show the per-field errors, and stop there when
validation fails; otherwise enter loading, post the payload, handle the
outcome, and leave loading in the `finally` block. -/
def submitTrace (base : String) (env : BrowserEnv) (form : FormState)
    (outcome : PostOutcome) : List CAction :=
  let v := validate form
  let preActs : List CAction :=
    [.alert "success" false none, .alert "error" false none, .showFieldErrors v.errors]
  if v.ok then
    preActs ++ [.setLoading true, .post (postUrl base) (buildPayload env form)] ++
      (match outcome with
       | .resolved _ => [.logInfo, .alert "success" true none, .formReset]
       | .thrown _ => [.logError, .alert "error" true (some failText)]) ++
      [.setLoading false]
  else preActs

/-- The configuration-pending banner text of app.js line 119. -/
def configPendingMessage : String := "⚙️ Form not configured yet. Please try again later."

/-- Result of the `DOMContentLoaded` listener (app.js lines 108–121 and
the listener registrations that follow). -/
structure InitResult where
  submitDisabled : Bool
  banners : BannerState
  submitListenerAttached : Bool
  apiBase : Option String
deriving Repr

/-- Embedding of the `DOMContentLoaded` listener: after `loadConfig`, a
missing `API_BASE_URL` disables the submit button, shows the
configuration-pending failure banner, and returns before the submit
listener is attached (so no intake request can ever be issued). -/
def initClient (cfg : ConfigFetch) (banners0 : BannerState) : InitResult :=
  match loadConfig cfg with
  | none =>
    { submitDisabled := true
      banners := applyShowAlert banners0 "error" true (some configPendingMessage)
      submitListenerAttached := false
      apiBase := none }
  | some b =>
    { submitDisabled := false
      banners := banners0
      submitListenerAttached := true
      apiBase := some b }

/-! ## The lead-intake handler (modelled from the spec)

The repository snapshot contains only the handler's README
(environment variables `TABLE_NAME`, `SES_FROM`, `SES_OWNER_TO`,
`ALLOWED_ORIGINS`, `TTL_DAYS`); the handler source itself is absent, so
the definitions below are modelled from §4.2, §6 and §8 of the
specification. -/

/-- The parsed JSON body of a `POST \x2flead` request (`none` models a
missing or unparseable body). -/
structure LeadInput where
  name : String
  email : String
  message : String
  utm : List (String × String)
deriving DecidableEq, Repr

/-- Modelled from the spec: server-side re-validation (§4.2 step 1) —
reject a missing/invalid body, then apply the same semantic rules as the
client table (name ≥ 2, e-mail pattern, message ≥ 10, after trimming),
answering the first failure. -/
def serverValidate (body : Option LeadInput) : Except String LeadInput :=
  match body with
  | none => Except.error "Invalid request body"
  | some b =>
    let name := jsTrim b.name
    let email := jsTrim b.email
    let message := jsTrim b.message
    if name.length < 2 then Except.error "Please provide a valid name."
    else if !emailRegexMatch email then Except.error "Please provide a valid email."
    else if message.length < 10 then Except.error "Please provide a longer message."
    else Except.ok { name := name, email := email, message := message, utm := b.utm }

/-- The durable Lead Record (§3); timestamps in epoch seconds. -/
structure LeadRecord where
  id : String
  name : String
  email : String
  message : String
  utm : List (String × String)
  submittedAt : Nat
  expiresAt : Option Nat
deriving DecidableEq, Repr

/-- Seconds per day, for the retention-window arithmetic. -/
def secondsPerDay : Nat := 86400

/-- Modelled from the spec: the handler's retention configuration — the
optional numeric `TTL_DAYS` environment value (README: "optional; e.g.
`180`").  `none` models an unset variable. -/
structure HandlerConfig where
  ttlDays : Option Nat
deriving DecidableEq, Repr

/-- Modelled from the spec (§4.2 step 3): the assembled record;
`expiresAt` is computed as `submittedAt + window` only when a retention
window is configured.  A numeric environment value of `0` is falsy in JS
and therefore counts as "no retention window configured". -/
def buildRecord (input : LeadInput) (id : String) (now : Nat) (cfg : HandlerConfig) : LeadRecord :=
  { id := id
    name := input.name
    email := input.email
    message := input.message
    utm := input.utm
    submittedAt := now
    expiresAt :=
      match cfg.ttlDays with
      | some n => if 0 < n then some (now + n * secondsPerDay) else none
      | none => none }

/-- Success or failure of one call to a managed service. -/
inductive SvcResult where
  | ok
  | fail
deriving DecidableEq, Repr

/-- Outcomes of the three external calls a request can make: the store
write and the two notification e-mails. -/
structure HandlerDeps where
  store : SvcResult
  confirmEmail : SvcResult
  ownerEmail : SvcResult
deriving DecidableEq, Repr

/-- Observable actions of the handler, in program order. -/
inductive SAction where
  | storeWrite (record : LeadRecord)
  | sendConfirm (toAddr : String)
  | sendOwnerAlert
  | logNotifyFailure
deriving DecidableEq, Repr

/-- The handler's HTTP response: status, generated id on success, error
message otherwise. -/
structure HandlerResponse where
  status : Nat
  leadId : Option String
  message : Option String
deriving DecidableEq, Repr

/-- Modelled from the spec (§4.2 processing sequence, §7): validate, then
write the record (a write failure is fatal: 5xx, nothing else attempted),
then attempt both notifications, logging — but swallowing — their
failures, and answer success with the generated id. -/
def handleLead (cfg : HandlerConfig) (deps : HandlerDeps) (body : Option LeadInput)
    (freshId : String) (now : Nat) : HandlerResponse × List SAction :=
  match serverValidate body with
  | .error m => ({ status := 400, leadId := none, message := some m }, [])
  | .ok input =>
    let record := buildRecord input freshId now cfg
    match deps.store with
    | .fail =>
      ({ status := 500, leadId := none, message := some "Internal server error" },
       [SAction.storeWrite record])
    | .ok =>
      ({ status := 200, leadId := some freshId, message := none },
       [SAction.storeWrite record, SAction.sendConfirm input.email] ++
         (match deps.confirmEmail with
          | .fail => [SAction.logNotifyFailure]
          | .ok => []) ++
         [SAction.sendOwnerAlert] ++
         (match deps.ownerEmail with
          | .fail => [SAction.logNotifyFailure]
          | .ok => []))

/-! ## Concrete instances used to instantiate the theorems -/

/-- A concrete valid form submission. -/
def formJane : FormState :=
  { name := " Jane "
    email := "jane@example.com"
    message := "Hello, I am interested in your services!"
    consent := true }

/-- A concrete invalid form submission (name too short after trimming). -/
def formShortName : FormState :=
  { name := " J "
    email := "jane@example.com"
    message := "Hello, I am interested in your services!"
    consent := true }

/-- A fixed browser environment for concrete instantiations. -/
def envLinkedIn : BrowserEnv :=
  { query := [("utm_source", "linkedin"), ("utm_medium", "")]
    userAgent := "curl/8.0"
    referrer := ""
    nowISO := "2026-10-11T00:00:00.000Z" }

/-- A 400 JSON response whose `message` field is the empty string. -/
def respEmptyMessage : FetchResponse :=
  { status := 400
    statusText := "Bad Request"
    contentType := some "application/json"
    jsonBody := JValue.obj [("message", JValue.str "")]
    textBody := "" }

/-- A concrete parsed lead body. -/
def inputJane : LeadInput :=
  { name := "Jane"
    email := "jane@example.com"
    message := "Hello, I am interested in your services!"
    utm := [("utm_source", "linkedin")] }

/-- A 200 JSON response carrying a generated id. -/
def respOkJson : FetchResponse :=
  { status := 200
    statusText := "OK"
    contentType := some "application/json; charset=utf-8"
    jsonBody := JValue.obj [("id", JValue.str "abc")]
    textBody := "" }

/-- A handler configuration with a 180-day retention window. -/
def cfg180 : HandlerConfig := { ttlDays := some 180 }

/-- Dependencies where the store succeeds but both e-mails fail. -/
def depsEmailsFail : HandlerDeps :=
  { store := SvcResult.ok, confirmEmail := SvcResult.fail, ownerEmail := SvcResult.fail }

/-- Dependencies where every external call succeeds. -/
def depsAllOk : HandlerDeps :=
  { store := SvcResult.ok, confirmEmail := SvcResult.ok, ownerEmail := SvcResult.ok }

/-! # Theorems -/

/-- C1: the client-side validate function flags exactly the failing fields
and no others — name iff trimmed length < 2, email iff the permissive
pattern fails on the trimmed value, message iff trimmed length < 10,
consent iff unchecked — each computed independently, and the result is
ok iff no field is flagged. -/
theorem validate_flags_exactly_failing_fields (f : FormState) :
    ((validate f).errors.name.isSome = true ↔ (jsTrim f.name).length < 2) ∧
    ((validate f).errors.email.isSome = true ↔ emailRegexMatch (jsTrim f.email) = false) ∧
    ((validate f).errors.message.isSome = true ↔ (jsTrim f.message).length < 10) ∧
    ((validate f).errors.consent.isSome = true ↔ f.consent = false) ∧
    ((validate f).ok = true ↔
      (validate f).errors.name = none ∧ (validate f).errors.email = none ∧
      (validate f).errors.message = none ∧ (validate f).errors.consent = none) := by
  unfold validate noErrors
  refine ⟨?_, ?_, ?_, ?_, ?_⟩ <;> dsimp only <;> split_ifs <;> simp_all

/-- C4: on a valid submission the payload carries the trimmed name, email
and message, a utm mapping holding exactly the recognized keys whose query
value is non-empty, the user-agent string, the referring URL or `none`,
and the client timestamp. -/
theorem buildPayload_contents (env : BrowserEnv) (f : FormState)
    (hok : (validate f).ok = true) :
    (buildPayload env f).name = jsTrim f.name ∧
    (buildPayload env f).email = jsTrim f.email ∧
    (buildPayload env f).message = jsTrim f.message ∧
    (∀ k v, (k, v) ∈ (buildPayload env f).utm ↔
      (k ∈ utmKeys ∧ getParam env.query k = some v ∧ v ≠ "")) ∧
    (buildPayload env f).userAgent = env.userAgent ∧
    (buildPayload env f).referer = (if env.referrer = "" then none else some env.referrer) ∧
    (buildPayload env f).ts = env.nowISO := by
  refine ⟨rfl, rfl, rfl, ?_, rfl, ?_, rfl⟩
  · intro k v
    simp only [buildPayload, parseUTM, List.mem_filterMap]
    constructor
    · rintro ⟨a, ha, hfa⟩
      rcases hga : getParam env.query a with _ | w <;> rw [hga] at hfa <;> dsimp only at hfa
      · exact absurd hfa (by simp)
      · split_ifs at hfa with hw
        simp only [Option.some.injEq, Prod.mk.injEq] at hfa
        obtain ⟨rfl, rfl⟩ := hfa
        exact ⟨ha, hga, hw⟩
    · rintro ⟨hk, hg, hv⟩
      exact ⟨k, hk, by rw [hg]; simp [hv]⟩
  · simp only [buildPayload]
    by_cases h : env.referrer = "" <;> simp [h]

/-- Witness for C4 at a concrete valid submission. -/
theorem buildPayload_contents_witness :
    (buildPayload envLinkedIn formJane).name = "Jane" ∧
    (buildPayload envLinkedIn formJane).utm = [("utm_source", "linkedin")] := by
  have h := buildPayload_contents envLinkedIn formJane (by decide)
  exact ⟨h.1.trans (by decide), by decide⟩

/-- C2: when client-side validation fails, the submit handler shows the
field errors and stops — the trace holds no loading transition and no
HTTP POST, so no record can be persisted from that attempt. -/
theorem invalid_submission_no_request (base : String) (env : BrowserEnv) (form : FormState)
    (outcome : PostOutcome) (h : (validate form).ok = false) :
    submitTrace base env form outcome =
      [CAction.alert "success" false none, CAction.alert "error" false none,
       CAction.showFieldErrors (validate form).errors] ∧
    (∀ url p, CAction.post url p ∉ submitTrace base env form outcome) ∧
    CAction.setLoading true ∉ submitTrace base env form outcome := by
  refine ⟨?_, ?_, ?_⟩
  · simp [submitTrace, h]
  · intro url p
    simp [submitTrace, h]
  · simp [submitTrace, h]

/-- Witness for C2 at a concrete invalid submission. -/
theorem invalid_submission_no_request_witness :
    (validate formShortName).ok = false ∧
    submitTrace "https://api.example.com" envLinkedIn formShortName (PostOutcome.thrown "err") =
      [CAction.alert "success" false none, CAction.alert "error" false none,
       CAction.showFieldErrors
         { name := some "Please enter your full name."
           email := none, message := none, consent := none }] := by
  refine ⟨by decide, ?_⟩
  have h := invalid_submission_no_request "https://api.example.com" envLinkedIn formShortName
    (PostOutcome.thrown "err") (by decide)
  exact h.1.trans (by decide)

/-- C7: when validation passes, the submit control enters the loading
state before the POST is issued, and the trace ends with leaving the
loading state on every completion path (resolved response, thrown error
or timeout — both failure modes reach the handler as a thrown error). -/
theorem valid_submission_loading_cleanup (base : String) (env : BrowserEnv) (form : FormState)
    (outcome : PostOutcome) (h : (validate form).ok = true) :
    submitTrace base env form outcome =
      [CAction.alert "success" false none, CAction.alert "error" false none,
       CAction.showFieldErrors (validate form).errors, CAction.setLoading true,
       CAction.post (postUrl base) (buildPayload env form)] ++
      (match outcome with
       | .resolved _ => [CAction.logInfo, CAction.alert "success" true none, CAction.formReset]
       | .thrown _ => [CAction.logError, CAction.alert "error" true (some failText)]) ++
      [CAction.setLoading false] ∧
    (submitTrace base env form outcome).getLast? = some (CAction.setLoading false) := by
  have h1 : submitTrace base env form outcome =
      [CAction.alert "success" false none, CAction.alert "error" false none,
       CAction.showFieldErrors (validate form).errors, CAction.setLoading true,
       CAction.post (postUrl base) (buildPayload env form)] ++
      (match outcome with
       | .resolved _ => [CAction.logInfo, CAction.alert "success" true none, CAction.formReset]
       | .thrown _ => [CAction.logError, CAction.alert "error" true (some failText)]) ++
      [CAction.setLoading false] := by
    cases outcome <;> simp [submitTrace, h]
  refine ⟨h1, ?_⟩
  rw [h1]
  cases outcome <;> rfl

/-- Witness for C7 at a concrete valid submission. -/
theorem valid_submission_loading_cleanup_witness :
    (validate formJane).ok = true ∧
    (submitTrace "https://api.example.com" envLinkedIn formJane
      (PostOutcome.resolved (RespPayload.text "ok"))).getLast? =
      some (CAction.setLoading false) :=
  ⟨by decide, (valid_submission_loading_cleanup "https://api.example.com" envLinkedIn formJane
    (PostOutcome.resolved (RespPayload.text "ok")) (by decide)).2⟩

/-- C8 (amended): at every point of the client's lifecycle at most one of
the two banners is visible (every `showAlert` call hides the other
banner), and starting a new submission clears both banners before
validation runs (the trace's first two actions hide both). -/
theorem banners_at_most_one_visible :
    (∀ st, ReachableBanner st → atMostOneVisible st = true) ∧
    (∀ base env form outcome, (submitTrace base env form outcome).take 2 =
      [CAction.alert "success" false none, CAction.alert "error" false none]) := by
  constructor
  · intro st h
    induction h with
    | init => rfl
    | step st ty vis txt _ _ =>
      unfold applyShowAlert atMostOneVisible successVisible failureVisible
      split_ifs <;> simp
  · intro base env form outcome
    cases hok : (validate form).ok <;> cases outcome <;> simp [submitTrace, hok]

/-- Witness for C8's amended invariant at the initial banner state. -/
theorem banners_at_most_one_visible_witness :
    atMostOneVisible initialBanners = true :=
  banners_at_most_one_visible.1 initialBanners ReachableBanner.init

/-- Counterexample to C8 as stated: the banner state reached by showing
the success banner and then performing the two clearing calls that open
every submission leaves both banners hidden, so it is not the case that
exactly one banner is visible at every lifecycle point. -/
theorem banners_exactly_one_visible_cex :
    ReachableBanner
      (applyShowAlert (applyShowAlert (applyShowAlert initialBanners "success" true none)
        "success" false none) "error" false none) ∧
    exactlyOneVisible
      (applyShowAlert (applyShowAlert (applyShowAlert initialBanners "success" true none)
        "success" false none) "error" false none) = false :=
  ⟨ReachableBanner.step _ _ _ _ (ReachableBanner.step _ _ _ _
    (ReachableBanner.step _ _ _ _ ReachableBanner.init)), by decide⟩

/-- C9: when the runtime config is absent, malformed, or lacks a
non-empty-string `API_BASE_URL`, the client keeps `API_BASE_URL` null,
disables the submit control, shows the configuration-pending failure
banner, and returns before the submit listener is attached — the only
code path that posts to the intake endpoint. -/
theorem missing_config_disables_submission (cfg : ConfigFetch) (b0 : BannerState)
    (h : ∀ v s, cfg = ConfigFetch.jsonOk v →
      getProp v "API_BASE_URL" = some (JValue.str s) → jsTrim s = "") :
    loadConfig cfg = none ∧
    (initClient cfg b0).submitDisabled = true ∧
    (initClient cfg b0).submitListenerAttached = false ∧
    failureVisible (initClient cfg b0).banners = true ∧
    (initClient cfg b0).banners.failureText = configPendingMessage ∧
    (initClient cfg b0).apiBase = none := by
  have hnone : loadConfig cfg = none := by
    cases cfg with
    | fetchFail => rfl
    | httpNotOk => rfl
    | jsonFail => rfl
    | jsonOk v =>
      unfold loadConfig
      dsimp only
      rcases hg : getProp v "API_BASE_URL" with _ | w
      · rfl
      · cases w with
        | str s => simp [h v s rfl hg]
        | null => rfl
        | bool b => rfl
        | num n => rfl
        | obj fs => rfl
  refine ⟨hnone, ?_, ?_, ?_, ?_, ?_⟩ <;> (unfold initClient; rw [hnone]) <;> rfl

/-- Witness for C9 when the config fetch fails outright. -/
theorem missing_config_disables_submission_witness :
    (initClient ConfigFetch.fetchFail initialBanners).submitDisabled = true ∧
    (initClient ConfigFetch.fetchFail initialBanners).submitListenerAttached = false ∧
    (initClient ConfigFetch.fetchFail initialBanners).banners.failureText =
      configPendingMessage := by
  have h := missing_config_disables_submission ConfigFetch.fetchFail initialBanners
    (fun v s h' _ => nomatch h')
  exact ⟨h.2.1, h.2.2.1, h.2.2.2.2.1⟩

/-- C10 (amended): the stored base URL is the configured value trimmed
with at most one trailing slash removed, and every submission posts to
that base followed by `"/lead"` — so a base URL whose trimmed value ends
in exactly one trailing slash never produces a double-slash request path
(a value ending in several slashes keeps the extra ones and does). -/
theorem normalized_base_single_slash_join (s : String) (u : List Char)
    (h : (jsTrim s).data = u ++ ['/']) (hu : u.getLast? ≠ some '/') :
    normalizeBase s = String.mk u ∧
    (postUrl (normalizeBase s)).data = u ++ ['/', 'l', 'e', 'a', 'd'] ∧
    ∀ w, (postUrl (normalizeBase s)).data ≠ w ++ ['/', '/', 'l', 'e', 'a', 'd'] := by
  have h1 : normalizeBase s = String.mk u := by
    unfold normalizeBase stripTrailingSlash
    rw [h]
    simp [List.getLast?_concat, List.dropLast_concat]
  have h2 : (postUrl (normalizeBase s)).data = u ++ ['/', 'l', 'e', 'a', 'd'] := by
    rw [h1]; rfl
  refine ⟨h1, h2, ?_⟩
  intro w hw
  apply hu
  have h3 : u ++ ['/', 'l', 'e', 'a', 'd'] = (w ++ ['/']) ++ ['/', 'l', 'e', 'a', 'd'] := by
    rw [List.append_assoc]
    exact h2.symm.trans hw
  have h5 : u = w ++ ['/'] := List.append_cancel_right h3
  rw [h5]
  exact List.getLast?_concat _

/-- Witness for C10's amended statement at a concrete base URL. -/
theorem normalized_base_single_slash_join_witness :
    normalizeBase "https://api.example.com/" = "https://api.example.com" ∧
    postUrl (normalizeBase "https://api.example.com/") = "https://api.example.com/lead" := by
  have h := normalized_base_single_slash_join "https://api.example.com/"
    ("https://api.example.com".data) (by rfl) (by decide)
  exact ⟨h.1.trans (by rfl), by decide⟩

/-- Counterexample to C10 as stated: a configured base URL ending in two
slashes still ends with a trailing slash, yet after normalization (which
removes only one) the request URL contains a double slash before `lead`. -/
theorem double_trailing_slash_cex :
    (jsTrim "https://api.example.com//").data.getLast? = some '/' ∧
    loadConfig (ConfigFetch.jsonOk (JValue.obj
      [("API_BASE_URL", JValue.str "https://api.example.com//")])) =
      some "https://api.example.com/" ∧
    postUrl "https://api.example.com/" = "https://api.example.com//lead" :=
  ⟨rfl, rfl, rfl⟩

/-- C6 (amended): `postJSON` parses the body as JSON exactly when the
content type indicates JSON and as text otherwise; on a non-success
status it throws the server-supplied `message` field when the parsed body
is an object whose `message` is truthy (in particular any non-empty
string), and otherwise the status's reason phrase (`res.statusText`),
falling back to a generic message when that is empty. -/
theorem postJSON_error_message_selection (r : FetchResponse) :
    (parsePayload r = if ctIndicatesJson r.contentType then RespPayload.json r.jsonBody
      else RespPayload.text r.textBody) ∧
    (resOk r = true → postJSONResult r = Except.ok (parsePayload r)) ∧
    (resOk r = false → ∀ fields m, parsePayload r = RespPayload.json (JValue.obj fields) →
      lookupField fields "message" = some (JValue.str m) → m ≠ "" →
      postJSONResult r = Except.error m) ∧
    (resOk r = false → hasTruthyMessage (parsePayload r) = false → r.statusText ≠ "" →
      postJSONResult r = Except.error r.statusText) ∧
    (resOk r = false → hasTruthyMessage (parsePayload r) = false → r.statusText = "" →
      postJSONResult r = Except.error "Request failed") := by
  refine ⟨rfl, ?_, ?_, ?_, ?_⟩
  · intro h
    simp [postJSONResult, h]
  · intro h fields m hp hm hm0
    simp only [postJSONResult, h, if_false, Bool.false_eq_true, hp]
    have htm : hasTruthyMessage (parsePayload r) = true := by
      simp [hasTruthyMessage, hp, payloadTypeofObject, payloadMessage, typeofIsObject,
        getProp, hm, jsTruthy, hm0]
    rw [hp] at htm
    simp [htm, payloadMessage, getProp, hm, jsTruthy, hm0, jsToString]
  · intro h hm hst
    simp [postJSONResult, h, hm, jsTruthy, jsToString, hst]
  · intro h hm hst
    simp [postJSONResult, h, hm, jsTruthy, jsToString, hst]

/-- Witness for C6's amended statement at a concrete 200 JSON response. -/
theorem postJSON_error_message_selection_witness :
    postJSONResult respOkJson =
      Except.ok (RespPayload.json (JValue.obj [("id", JValue.str "abc")])) := by
  have h := (postJSON_error_message_selection respOkJson).2.1 (by rfl)
  exact h.trans (by rfl)

/-- Counterexample to C6 as stated: a 400 JSON response whose body is an
object containing a `message` field (the empty string) does not throw
that field's value — the code falls back to the reason phrase because
the empty string is falsy. -/
theorem postJSON_empty_message_cex :
    resOk respEmptyMessage = false ∧
    parsePayload respEmptyMessage = RespPayload.json (JValue.obj [("message", JValue.str "")]) ∧
    postJSONResult respEmptyMessage = Except.error "Bad Request" :=
  ⟨rfl, rfl, rfl⟩

/-- C3: the handler's response is a function of validation and the store
write only — with the same store outcome, differing e-mail outcomes give
identical responses; a validated request with a failing store answers 500
and attempts no notification; a validated request with a succeeding store
answers 200, whatever the notification outcomes. -/
theorem handler_status_ignores_notification (cfg : HandlerConfig) (d d' : HandlerDeps)
    (body : Option LeadInput) (freshId : String) (now : Nat)
    (hstore : d.store = d'.store) :
    (handleLead cfg d body freshId now).1 = (handleLead cfg d' body freshId now).1 ∧
    (∀ input, serverValidate body = Except.ok input → d.store = SvcResult.fail →
      (handleLead cfg d body freshId now).1.status = 500 ∧
      ∀ a ∈ (handleLead cfg d body freshId now).2,
        (∀ e, a ≠ SAction.sendConfirm e) ∧ a ≠ SAction.sendOwnerAlert) ∧
    (∀ input, serverValidate body = Except.ok input → d.store = SvcResult.ok →
      (handleLead cfg d body freshId now).1.status = 200) := by
  refine ⟨?_, ?_, ?_⟩
  · cases hv : serverValidate body with
    | error m => simp [handleLead, hv]
    | ok input =>
      cases hs : d.store <;> rw [hs] at hstore <;>
        simp [handleLead, hv, hs, ← hstore]
  · intro input hv hs
    refine ⟨by simp [handleLead, hv, hs], ?_⟩
    intro a ha
    simp only [handleLead, hv, hs] at ha
    simp at ha
    subst ha
    exact ⟨fun e => by simp, by simp⟩
  · intro input hv hs
    simp [handleLead, hv, hs]

/-- Witness for C3: with the store succeeding, failing e-mails and
succeeding e-mails produce the same 200 response. -/
theorem handler_status_ignores_notification_witness :
    (handleLead cfg180 depsEmailsFail (some inputJane) "id-1" 1000).1 =
      (handleLead cfg180 depsAllOk (some inputJane) "id-1" 1000).1 ∧
    (handleLead cfg180 depsEmailsFail (some inputJane) "id-1" 1000).1.status = 200 := by
  have h := handler_status_ignores_notification cfg180 depsEmailsFail depsAllOk
    (some inputJane) "id-1" 1000 rfl
  exact ⟨h.1, h.2.2 _ rfl rfl⟩

/-- C5: with a retention window of `N` days configured (a positive
`TTL_DAYS`; zero is falsy, hence "unconfigured"), the record the handler
writes expires exactly `N` days after its submission timestamp, strictly
after it; with no window configured the record has no expiry. -/
theorem record_expiry_matches_retention (input : LeadInput) (id : String) (now : Nat)
    (cfg : HandlerConfig) :
    (∀ n, cfg.ttlDays = some n → 0 < n →
      (buildRecord input id now cfg).expiresAt = some (now + n * secondsPerDay) ∧
      (buildRecord input id now cfg).submittedAt < now + n * secondsPerDay) ∧
    (cfg.ttlDays = none → (buildRecord input id now cfg).expiresAt = none) ∧
    (∀ deps body, serverValidate body = Except.ok input →
      SAction.storeWrite (buildRecord input id now cfg) ∈ (handleLead cfg deps body id now).2) := by
  refine ⟨?_, ?_, ?_⟩
  · intro n hn hpos
    refine ⟨by simp [buildRecord, hn, hpos], ?_⟩
    have hday : 0 < n * secondsPerDay := Nat.mul_pos hpos (by norm_num [secondsPerDay])
    simp only [buildRecord]
    omega
  · intro hn
    simp [buildRecord, hn]
  · intro deps body hv
    cases hs : deps.store <;> simp [handleLead, hv, hs]

/-- Witness for C5 with a 180-day retention window. -/
theorem record_expiry_matches_retention_witness :
    (buildRecord inputJane "id-1" 1000 cfg180).expiresAt = some (1000 + 180 * secondsPerDay) ∧
    SAction.storeWrite (buildRecord inputJane "id-1" 1000 cfg180) ∈
      (handleLead cfg180 depsAllOk (some inputJane) "id-1" 1000).2 := by
  have h := record_expiry_matches_retention inputJane "id-1" 1000 cfg180
  exact ⟨(h.1 180 rfl (by norm_num)).1, h.2.2 depsAllOk (some inputJane) rfl⟩

end LeadsSite
